import Mathlib

/-!
Verification of the blender-mcp addon's command server and execution bridge
(`src/addon.py`), as a shallow embedding in Lean 4.

The embedding mirrors, from the source:
  * the decoded JSON data model (`JValue`), since the wire protocol is
    `json.loads(buffer.decode('utf-8'))` on an accumulated byte buffer;
  * a strict UTF-8 decoder and a JSON reader modelling the Python standard
    library calls used at `_handle_client` (stdlib semantics, not repo code);
  * the per-connection read/accumulate/decode loop of `_handle_client`;
  * the capability-gated handler registry rebuilt per dispatch inside
    `_execute_command_internal`, with Python keyword-argument binding
    semantics for the `handler(**params)` call site;
  * the two-layer try/except structure of `execute_command` /
    `_execute_command_internal` that converts handler exceptions into
    error responses;
  * the concrete bodies of the handlers the claims inspect
    (`get_scene_info`, `add_modifier`, `get_polyhaven_categories`,
    `search_polyhaven_assets`); the remaining handlers call an opaque
    Scene Engine collaborator supplied through an environment, matching
    the interface-boundary treatment of `bpy` operations;
  * the `BlenderMCPServer.start` / `BlenderMCPServer.stop` lifecycle.

Numeric fidelity notes: Python floats are not modelled; object coordinates
are abstracted to integers (no claim depends on coordinate arithmetic), and
JSON numbers are kept as their source lexemes.  Exception message texts for
Python-level `TypeError`s are modelled as plausible strings; no claim fixes
their exact wording.
-/

/-- A decoded JSON value, as produced by `json.loads`.  Numbers keep their
source lexeme (Python distinguishes `1` from `1.0` anyway, and no claim
computes with numeric values).  Objects are key/value lists with unique keys,
maintained in insertion order like a Python `dict`. -/
inductive JValue where
  | null
  | bool (b : Bool)
  | num (lexeme : String)
  | str (s : String)
  | arr (elems : List JValue)
  | obj (fields : List (String × JValue))
deriving Inhabited

/-- Python `==` between a decoded value and a string literal. -/
def isStrEq (v : JValue) (s : String) : Bool :=
  match v with
  | .str t => t == s
  | _ => false

/-- Python `v in [s₁, …, sₙ]` for a list of string literals. -/
def isOneOfStr (v : JValue) (names : List String) : Bool :=
  match v with
  | .str t => names.contains t
  | _ => false

/-- `dict.get(k)`: first binding of `k` (keys are unique by construction). -/
def lookupField (fields : List (String × JValue)) (k : String) : Option JValue :=
  (fields.find? (fun p => p.1 == k)).map (·.2)

/-- `dict` insertion: overwrite an existing key in place, else append. -/
def insertField (fields : List (String × JValue)) (k : String) (v : JValue) :
    List (String × JValue) :=
  if fields.any (fun p => p.1 == k) then
    fields.map (fun p => if p.1 == k then (k, v) else p)
  else
    fields ++ [(k, v)]

/-- Python truthiness of a decoded JSON value (`if categories:` etc.). -/
def pyTruthy : JValue → Bool
  | .null => false
  | .bool b => b
  | .num l => !(l == "0" || l == "-0" || l == "0.0" || l == "-0.0")
  | .str s => !(s == "")
  | .arr es => !es.isEmpty
  | .obj fs => !fs.isEmpty

mutual

/-- Python `str()` of a decoded JSON value, used by the f-strings in error
messages (`f"Unknown command type: {cmd_type}"`).  The list/dict cases are
approximations of `repr`; dispatch never reaches them because unhashable
command types take the `TypeError` path instead. -/
def pyStrOfJson : JValue → String
  | .null => "None"
  | .bool true => "True"
  | .bool false => "False"
  | .num l => l
  | .str s => s
  | .arr es => "[" ++ pyStrList es ++ "]"
  | .obj fs => "\x7b" ++ pyStrFields fs ++ "\x7d"

def pyStrList : List JValue → String
  | [] => ""
  | [v] => pyStrOfJson v
  | v :: vs => pyStrOfJson v ++ ", " ++ pyStrList vs

def pyStrFields : List (String × JValue) → String
  | [] => ""
  | [(k, v)] => k ++ ": " ++ pyStrOfJson v
  | (k, v) :: fs => k ++ ": " ++ pyStrOfJson v ++ ", " ++ pyStrFields fs

end

/-- `str()` of `command.get("type")`, whose value is `None` when absent. -/
def pyFormatOpt : Option JValue → String
  | none => "None"
  | some v => pyStrOfJson v

/-! ### Strict UTF-8 decoding (`bytes.decode('utf-8')`)

Python's strict decoder rejects invalid lead bytes, truncated or malformed
continuation sequences, overlong encodings and surrogate code points; on any
of these it raises `UnicodeDecodeError`, modelled as `none`. -/

/-- A UTF-8 continuation byte. -/
def isCont (b : Nat) : Bool := 128 ≤ b && b ≤ 191

/-- Strict UTF-8 decode of a byte list; `none` models `UnicodeDecodeError`
(including the truncated-final-sequence case that matters to framing). -/
def utf8Decode : List Nat → Option (List Char)
  | [] => some []
  | b :: rest =>
    if b < 128 then
      match utf8Decode rest with
      | some cs => some (Char.ofNat b :: cs)
      | none => none
    else if b < 194 then
      none
    else if b < 224 then
      match rest with
      | b1 :: rest1 =>
        if isCont b1 then
          match utf8Decode rest1 with
          | some cs => some (Char.ofNat ((b - 192) * 64 + (b1 - 128)) :: cs)
          | none => none
        else none
      | [] => none
    else if b < 240 then
      match rest with
      | b1 :: b2 :: rest2 =>
        if (if b == 224 then 160 ≤ b1 && b1 ≤ 191
            else if b == 237 then 128 ≤ b1 && b1 ≤ 159
            else isCont b1) && isCont b2 then
          match utf8Decode rest2 with
          | some cs =>
            some (Char.ofNat ((b - 224) * 4096 + (b1 - 128) * 64 + (b2 - 128)) :: cs)
          | none => none
        else none
      | _ => none
    else if b < 245 then
      match rest with
      | b1 :: b2 :: b3 :: rest3 =>
        if (if b == 240 then 144 ≤ b1 && b1 ≤ 191
            else if b == 244 then 128 ≤ b1 && b1 ≤ 143
            else isCont b1) && isCont b2 && isCont b3 then
          match utf8Decode rest3 with
          | some cs =>
            some (Char.ofNat ((b - 240) * 262144 + (b1 - 128) * 4096 +
                              (b2 - 128) * 64 + (b3 - 128)) :: cs)
          | none => none
        else none
      | _ => none
    else none

/-! ### JSON reading (`json.loads`)

A total reader for the RFC 8259 grammar as accepted by the Python `json`
module in its default configuration: four whitespace characters, strict
strings (raw control characters rejected, the standard escapes and `\uXXXX`
accepted), numbers `-?(0|[1-9]\d*)(\.\d+)?([eE][+-]?\d+)?` kept as lexemes.
`none` models `json.JSONDecodeError`.  Not modelled: the `NaN`/`Infinity`
extensions and surrogate-pair combination in `\u` escapes (no claim reaches
them). -/

/-- Characters written via code points to keep the embedding free of
delimiter-literal pitfalls. -/
def quoteChar : Char := Char.ofNat 34

def backslashChar : Char := Char.ofNat 92

def lbraceChar : Char := Char.ofNat 123

def rbraceChar : Char := Char.ofNat 125

def lbrackChar : Char := Char.ofNat 91

def rbrackChar : Char := Char.ofNat 93

/-- The whitespace accepted between JSON tokens: space, tab, LF, CR. -/
def jsonWs (c : Char) : Bool :=
  c == ' ' || c == Char.ofNat 9 || c == Char.ofNat 10 || c == Char.ofNat 13

def dropWs : List Char → List Char
  | c :: cs => if jsonWs c then dropWs cs else c :: cs
  | [] => []

def isDigitChar (c : Char) : Bool := '0' ≤ c && c ≤ '9'

def grabDigits : List Char → List Char × List Char
  | c :: cs =>
    if isDigitChar c then
      let (ds, r) := grabDigits cs
      (c :: ds, r)
    else ([], c :: cs)
  | [] => ([], [])

def hexDigitVal (c : Char) : Option Nat :=
  if '0' ≤ c && c ≤ '9' then some (c.toNat - 48)
  else if 'a' ≤ c && c ≤ 'f' then some (c.toNat - 97 + 10)
  else if 'A' ≤ c && c ≤ 'F' then some (c.toNat - 65 + 10)
  else none

/-- The single-character escapes of the JSON string grammar. -/
def simpleEscape (c : Char) : Option Char :=
  if c == quoteChar then some quoteChar
  else if c == backslashChar then some backslashChar
  else if c == '/' then some '/'
  else if c == 'b' then some (Char.ofNat 8)
  else if c == 'f' then some (Char.ofNat 12)
  else if c == 'n' then some (Char.ofNat 10)
  else if c == 'r' then some (Char.ofNat 13)
  else if c == 't' then some (Char.ofNat 9)
  else none

/-- Read a string body after its opening quote; strict mode rejects raw
control characters below U+0020. -/
def readStringBody (acc : List Char) : List Char → Option (String × List Char)
  | [] => none
  | c :: r =>
    if c == quoteChar then some (String.mk acc.reverse, r)
    else if c == backslashChar then
      match r with
      | e :: r1 =>
        if e == 'u' then
          match r1 with
          | a :: b :: c2 :: d :: r2 =>
            match hexDigitVal a, hexDigitVal b, hexDigitVal c2, hexDigitVal d with
            | some va, some vb, some vc, some vd =>
              readStringBody (Char.ofNat (((va * 16 + vb) * 16 + vc) * 16 + vd) :: acc) r2
            | _, _, _, _ => none
          | _ => none
        else
          match simpleEscape e with
          | some ch => readStringBody (ch :: acc) r1
          | none => none
      | [] => none
    else if c.toNat < 32 then none
    else readStringBody (c :: acc) r

/-- Read a number lexeme; the fractional and exponent groups are optional and
only consumed when complete, mirroring the scanner's regular expression. -/
def readNumberLexeme (cs : List Char) : Option (String × List Char) :=
  let (sign, cs1) :=
    match cs with
    | c :: r => if c == '-' then (['-'], r) else (([] : List Char), cs)
    | [] => ([], cs)
  let intRes : Option (List Char × List Char) :=
    match cs1 with
    | c :: r =>
      if c == '0' then some (['0'], r)
      else if isDigitChar c then
        let (ds, r1) := grabDigits r
        some (c :: ds, r1)
      else none
    | [] => none
  match intRes with
  | none => none
  | some (ip, cs2) =>
    let (fp, cs3) :=
      match cs2 with
      | c :: r =>
        if c == '.' then
          match grabDigits r with
          | ([], _) => (([] : List Char), cs2)
          | (fd, r2) => ('.' :: fd, r2)
        else ([], cs2)
      | [] => ([], cs2)
    let (ep, cs4) :=
      match cs3 with
      | c :: r =>
        if c == 'e' || c == 'E' then
          let (sgn, r1) :=
            match r with
            | s :: r2 => if s == '+' || s == '-' then ([s], r2) else (([] : List Char), r)
            | [] => ([], r)
          match grabDigits r1 with
          | ([], _) => (([] : List Char), cs3)
          | (ed, r2) => (c :: (sgn ++ ed), r2)
        else ([], cs3)
      | [] => ([], cs3)
    some (String.mk (sign ++ ip ++ fp ++ ep), cs4)

mutual

/-- Read one JSON value; `fuel` only bounds recursion depth and is chosen
large enough at the top level. -/
def readValue : Nat → List Char → Option (JValue × List Char)
  | 0, _ => none
  | Nat.succ fuel, cs =>
    match dropWs cs with
    | [] => none
    | c :: r =>
      if c == lbraceChar then
        match dropWs r with
        | c2 :: r2 =>
          if c2 == rbraceChar then some (.obj [], r2)
          else readMembers fuel [] (c2 :: r2)
        | [] => none
      else if c == lbrackChar then
        match dropWs r with
        | c2 :: r2 =>
          if c2 == rbrackChar then some (.arr [], r2)
          else readElements fuel [] (c2 :: r2)
        | [] => none
      else if c == quoteChar then
        match readStringBody [] r with
        | some (s, r1) => some (.str s, r1)
        | none => none
      else if c == 't' then
        match r with
        | 'r' :: 'u' :: 'e' :: r1 => some (.bool true, r1)
        | _ => none
      else if c == 'f' then
        match r with
        | 'a' :: 'l' :: 's' :: 'e' :: r1 => some (.bool false, r1)
        | _ => none
      else if c == 'n' then
        match r with
        | 'u' :: 'l' :: 'l' :: r1 => some (.null, r1)
        | _ => none
      else
        match readNumberLexeme (c :: r) with
        | some (lex, r1) => some (.num lex, r1)
        | none => none

/-- Read the remaining elements of a non-empty array. -/
def readElements : Nat → List JValue → List Char → Option (JValue × List Char)
  | 0, _, _ => none
  | Nat.succ fuel, acc, cs =>
    match readValue fuel cs with
    | some (v, r) =>
      match dropWs r with
      | c :: r1 =>
        if c == ',' then readElements fuel (v :: acc) r1
        else if c == rbrackChar then some (.arr (v :: acc).reverse, r1)
        else none
      | [] => none
    | none => none

/-- Read the remaining members of a non-empty object, with `dict` insertion
semantics for duplicate keys. -/
def readMembers : Nat → List (String × JValue) → List Char → Option (JValue × List Char)
  | 0, _, _ => none
  | Nat.succ fuel, acc, cs =>
    match dropWs cs with
    | c :: r =>
      if c == quoteChar then
        match readStringBody [] r with
        | some (k, r1) =>
          match dropWs r1 with
          | c2 :: r2 =>
            if c2 == ':' then
              match readValue fuel r2 with
              | some (v, r3) =>
                match dropWs r3 with
                | c3 :: r4 =>
                  if c3 == ',' then readMembers fuel (insertField acc k v) r4
                  else if c3 == rbraceChar then some (.obj (insertField acc k v), r4)
                  else none
                | [] => none
              | none => none
            else none
          | [] => none
        | none => none
      else none
    | [] => none

end

/-- `json.loads` on a decoded character sequence: one value, then only
whitespace may remain (otherwise "Extra data"). -/
def jsonLoads (cs : List Char) : Option JValue :=
  match readValue (2 * cs.length + 4) cs with
  | some (v, r) => if (dropWs r).isEmpty then some v else none
  | none => none

/-! ### The per-connection accumulate-and-decode loop (`_handle_client`)

Each received chunk is appended to the connection's byte buffer and the
whole buffer is offered to `json.loads(buffer.decode('utf-8'))`.  A
successful decode clears the buffer and submits the command (via
`bpy.app.timers.register`); a `json.JSONDecodeError` is passed over,
retaining the buffer; any other exception — in particular the
`UnicodeDecodeError` raised by `buffer.decode` on bytes that are not valid
UTF-8 — escapes the inner `try` and hits the outer
`except Exception: … break`, terminating the read loop. -/

structure ClientState where
  buffer : List Nat
  alive : Bool
deriving Repr, DecidableEq

/-- One iteration of the `_handle_client` read loop, given the bytes returned
by `client.recv`.  An empty read models the peer closing the connection. -/
def handleChunk (st : ClientState) (data : List Nat) : ClientState × Option JValue :=
  if !st.alive then (st, none)
  else if data.isEmpty then ({ st with alive := false }, none)
  else
    let buf := st.buffer ++ data
    match utf8Decode buf with
    | none => ({ buffer := buf, alive := false }, none)
    | some chars =>
      match jsonLoads chars with
      | some cmd => ({ buffer := [], alive := true }, some cmd)
      | none => ({ buffer := buf, alive := true }, none)

/-- Fold the read loop over a sequence of received chunks, collecting the
commands submitted for execution. -/
def runClient (st : ClientState) : List (List Nat) → ClientState × List JValue
  | [] => (st, [])
  | d :: ds =>
    let (st1, out) := handleChunk st d
    let (st2, outs) := runClient st1 ds
    (st2, (match out with | some c => [c] | none => []) ++ outs)

/-! ### Scene state

The slice of Blender state the modelled handler bodies read and write.
Capability flags are the scene properties `blendermcp_use_polyhaven` and
`blendermcp_use_hyper3d` read live at dispatch time.  Coordinates are
abstracted to integers (float arithmetic is outside the model and outside
every claim). -/

structure SceneModifier where
  name : String
  modType : String
deriving Repr, DecidableEq

structure SceneObject where
  name : String
  objType : String
  location : List Int
  modifiers : List SceneModifier
deriving Repr, DecidableEq

structure Scene where
  name : String
  frame_current : Int
  frame_start : Int
  frame_end : Int
  objects : List SceneObject
  materials : List String
  collections : List String
  blendermcp_use_polyhaven : Bool
  blendermcp_use_hyper3d : Bool
deriving Repr, DecidableEq

/-- One entry of the `objects` list built by `get_scene_info`. -/
structure ObjectInfo where
  name : String
  objType : String
  location : List Int
deriving Repr, DecidableEq

/-- The dictionary returned by `get_scene_info`, as a structure. -/
structure SceneInfo where
  name : String
  frame_current : Int
  frame_start : Int
  frame_end : Int
  object_count : Nat
  objects : List ObjectInfo
  materials_count : Nat
  collections : List String
deriving Repr, DecidableEq

/-- `get_scene_info`: full counts, but the `objects` list stops after the
first 10 scene objects (the loop breaks at `i >= 10`). -/
def get_scene_info (s : Scene) : SceneInfo :=
  { name := s.name
    frame_current := s.frame_current
    frame_start := s.frame_start
    frame_end := s.frame_end
    object_count := s.objects.length
    objects := (s.objects.take 10).map (fun o => ⟨o.name, o.objType, o.location⟩)
    materials_count := s.materials.length
    collections := s.collections }

def objectInfoToJson (o : ObjectInfo) : JValue :=
  .obj [("name", .str o.name), ("type", .str o.objType),
        ("location", .arr (o.location.map (fun x => .num (toString x))))]

def sceneInfoToJson (i : SceneInfo) : JValue :=
  .obj [("name", .str i.name),
        ("frame_current", .num (toString i.frame_current)),
        ("frame_start", .num (toString i.frame_start)),
        ("frame_end", .num (toString i.frame_end)),
        ("object_count", .num (toString i.object_count)),
        ("objects", .arr (i.objects.map objectInfoToJson)),
        ("materials_count", .num (toString i.materials_count)),
        ("collections", .arr (i.collections.map JValue.str))]

/-! ### Collaborator environment

The spec treats the Asset Provider HTTP surface (`requests.get`) and the
Scene Engine (`bpy.ops` / `bpy.data` work inside the unmodelled handler
bodies) as opaque collaborators; the environment supplies both.  A
collaborator call either returns a value or fails with an exception
description. -/

structure Env where
  /-- `requests.get(url, params=…)` followed by `.json()`: either an HTTP
  status code with a parsed body, or an exception description. -/
  http : String → List (String × JValue) → Except String (Nat × JValue)
  /-- A Scene Engine call made by a handler body that is not modelled
  concretely, keyed by the handler's name: it may update the scene and
  either returns a result payload or raises. -/
  engine : String → Scene → List (String × JValue) → Scene × Except String JValue

/-! ### Handlers and keyword-argument binding

Each registry entry pairs the Python function's keyword signature with its
body.  Dispatch calls `handler(**params)`: CPython binds the expanded
mapping to the signature before any of the body runs, raising `TypeError`
for an unexpected keyword (when the function has no `**kwargs`) or for a
missing required argument. -/

structure SigParam where
  name : String
  required : Bool
deriving Repr, DecidableEq

structure Signature where
  params : List SigParam
  kwargs : Bool
deriving Repr, DecidableEq

structure Handler where
  sig : Signature
  run : Env → Scene → List (String × JValue) → Scene × Except String JValue

/-- Keyword binding succeeds iff every required parameter is supplied and —
absent a `**kwargs` catch-all — every supplied key names a parameter. -/
def bindOk (sig : Signature) (params : List (String × JValue)) : Bool :=
  sig.params.all (fun p => !p.required || params.any (fun q => q.1 == p.name)) &&
  (sig.kwargs || params.all (fun q => sig.params.any (fun p => p.name == q.1)))

/-- The `TypeError` text for a failed binding (exact wording immaterial to
the claims; shaped like CPython's messages). -/
def bindErrMsg (fname : String) (sig : Signature) (params : List (String × JValue)) : String :=
  match params.find? (fun q => !sig.kwargs && !(sig.params.any (fun p => p.name == q.1))) with
  | some q => fname ++ "() got an unexpected keyword argument " ++ q.1
  | none =>
    match sig.params.find? (fun p => p.required && !(params.any (fun q => q.1 == p.name))) with
    | some p => fname ++ "() missing 1 required positional argument: " ++ p.name
    | none => fname ++ "() argument binding failed"

def req (n : String) : SigParam := ⟨n, true⟩

def opt (n : String) : SigParam := ⟨n, false⟩

/-- A handler whose body is a Scene Engine collaborator call (all the
handlers the claims do not inspect internally). -/
def engineHandler (fname : String) (ps : List SigParam) : Handler :=
  { sig := ⟨ps, false⟩, run := fun env s p => env.engine fname s p }

/-! ### Concretely modelled handler bodies -/

/-- `get_scene_info()` — pure read of the scene, wrapped for the registry. -/
def get_scene_info_run (_ : Env) (s : Scene) (_ : List (String × JValue)) :
    Scene × Except String JValue :=
  (s, .ok (sceneInfoToJson (get_scene_info s)))

/-- `add_modifier(object_name, modifier_type, **kwargs)`: raises `ValueError`
when the object does not exist, otherwise appends a modifier named after its
type.  The `kwargs` attribute-setting loop only touches attributes of the
Blender modifier datablock (`hasattr`/`setattr`), which the scene model does
not carry, so it is a no-op here; Blender's renaming of duplicate modifier
names is likewise outside the model. -/
def add_modifier_run (_ : Env) (s : Scene) (params : List (String × JValue)) :
    Scene × Except String JValue :=
  match lookupField params "object_name", lookupField params "modifier_type" with
  | some (.str object_name), some (.str modifier_type) =>
    match s.objects.find? (fun o => o.name == object_name) with
    | none => (s, .error ("Object not found: " ++ object_name))
    | some _ =>
      let objects' := s.objects.map (fun o =>
        if o.name == object_name then
          { o with modifiers := o.modifiers ++ [⟨modifier_type, modifier_type⟩] }
        else o)
      ({ s with objects := objects' },
       .ok (.obj [("object", .str object_name), ("modifier", .str modifier_type),
                  ("type", .str modifier_type)]))
  | _, _ => (s, .error "TypeError: expected string arguments")

/-- `get_polyhaven_categories(asset_type)`: the whole body is inside
`try/except` returning `{"error": str(e)}`, so it never raises — including
when the `requests.get` collaborator call fails. -/
def get_polyhaven_categories_run (env : Env) (s : Scene) (params : List (String × JValue)) :
    Scene × Except String JValue :=
  let asset_type := (lookupField params "asset_type").getD .null
  (s, .ok (
    if !(isOneOfStr asset_type ["hdris", "textures", "models", "all"]) then
      .obj [("error", .str ("Invalid asset type: " ++ pyStrOfJson asset_type ++
                            ". Must be one of: hdris, textures, models, all"))]
    else
      match env.http ("https://api.polyhaven.com/categories/" ++ pyStrOfJson asset_type) [] with
      | .ok (200, body) => .obj [("categories", body)]
      | .ok (code, _) =>
        .obj [("error", .str ("API request failed with status code " ++ toString code))]
      | .error e => .obj [("error", .str e)]))

/-- `search_polyhaven_assets(asset_type=None, categories=None)`: builds the
query parameters, truncates the result dictionary to 20 entries, and — like
the categories handler — converts any exception into an `"error"` field of a
normally returned result. -/
def search_polyhaven_assets_run (env : Env) (s : Scene) (params : List (String × JValue)) :
    Scene × Except String JValue :=
  let asset_type := (lookupField params "asset_type").getD .null
  let categories := (lookupField params "categories").getD .null
  (s, .ok (
    if pyTruthy asset_type && !(isStrEq asset_type "all") &&
       !(isOneOfStr asset_type ["hdris", "textures", "models"]) then
      .obj [("error", .str ("Invalid asset type: " ++ pyStrOfJson asset_type ++
                            ". Must be one of: hdris, textures, models, all"))]
    else
      let qparams :=
        (if pyTruthy asset_type && !(isStrEq asset_type "all") then
          [("type", asset_type)] else []) ++
        (if pyTruthy categories then [("categories", categories)] else [])
      match env.http "https://api.polyhaven.com/assets" qparams with
      | .ok (200, body) =>
        match body with
        | .obj assets =>
          let limited := assets.take 20
          .obj [("assets", .obj limited),
                ("total_count", .num (toString assets.length)),
                ("returned_count", .num (toString limited.length))]
        | _ => .obj [("error", .str "AttributeError: response has no items")]
      | .ok (code, _) =>
        .obj [("error", .str ("API request failed with status code " ++ toString code))]
      | .error e => .obj [("error", .str e)]))

/-! ### The capability-gated registry (`_execute_command_internal`, lines
170–252): a base dictionary always present, the Polyhaven set added when
`bpy.context.scene.blendermcp_use_polyhaven` is set, the Hyper3D set when
`blendermcp_use_hyper3d` is set — recomputed on every dispatch call. -/

def baseHandlers : List (String × Handler) := [
  ("get_scene_info", ⟨⟨[], false⟩, get_scene_info_run⟩),
  ("get_object_info", engineHandler "get_object_info" [req "name"]),
  ("execute_code", engineHandler "execute_code" [req "code"]),
  ("add_primitive", engineHandler "add_primitive"
    [opt "primitive_type", opt "location", opt "rotation", opt "scale", opt "name"]),
  ("add_curve", engineHandler "add_curve" [opt "curve_type", opt "location", opt "name"]),
  ("add_text", engineHandler "add_text" [opt "text", opt "location", opt "name"]),
  ("add_empty", engineHandler "add_empty" [opt "empty_type", opt "location", opt "name"]),
  ("add_light", engineHandler "add_light"
    [opt "light_type", opt "location", opt "energy", opt "name"]),
  ("add_camera", engineHandler "add_camera" [opt "location", opt "rotation", opt "name"]),
  ("transform_object", engineHandler "transform_object"
    [req "name", opt "location", opt "rotation", opt "scale", opt "relative"]),
  ("duplicate_object", engineHandler "duplicate_object" [req "name", opt "linked"]),
  ("delete_object", engineHandler "delete_object" [req "name"]),
  ("rename_object", engineHandler "rename_object" [req "old_name", req "new_name"]),
  ("parent_object", engineHandler "parent_object"
    [req "child_name", req "parent_name", opt "keep_transform"]),
  ("join_objects", engineHandler "join_objects" [req "object_names"]),
  ("enter_edit_mode", engineHandler "enter_edit_mode" [req "object_name"]),
  ("exit_edit_mode", engineHandler "exit_edit_mode" []),
  ("select_all", engineHandler "select_all" [opt "action"]),
  ("extrude_mesh", engineHandler "extrude_mesh"
    [req "object_name", opt "distance", opt "direction"]),
  ("subdivide_mesh", engineHandler "subdivide_mesh" [req "object_name", opt "cuts"]),
  ("bevel_mesh", engineHandler "bevel_mesh" [req "object_name", opt "offset", opt "segments"]),
  ("inset_faces", engineHandler "inset_faces" [req "object_name", opt "thickness"]),
  ("loop_cut", engineHandler "loop_cut" [req "object_name", opt "number_cuts"]),
  ("merge_vertices", engineHandler "merge_vertices" [req "object_name", opt "merge_type"]),
  ("add_modifier", ⟨⟨[req "object_name", req "modifier_type"], true⟩, add_modifier_run⟩),
  ("remove_modifier", engineHandler "remove_modifier" [req "object_name", req "modifier_name"]),
  ("apply_modifier", engineHandler "apply_modifier" [req "object_name", req "modifier_name"]),
  ("list_modifiers", engineHandler "list_modifiers" [req "object_name"]),
  ("create_material", engineHandler "create_material"
    [req "name", opt "color", opt "metallic", opt "roughness"]),
  ("assign_material", engineHandler "assign_material" [req "object_name", req "material_name"]),
  ("set_material_color", engineHandler "set_material_color" [req "material_name", req "color"]),
  ("set_smooth_shading", engineHandler "set_smooth_shading" [req "object_name", opt "smooth"]),
  ("set_keyframe", engineHandler "set_keyframe"
    [req "object_name", req "data_path", opt "frame", opt "value"]),
  ("set_frame", engineHandler "set_frame" [req "frame"]),
  ("get_frame_range", engineHandler "get_frame_range" []),
  ("set_render_settings", engineHandler "set_render_settings"
    [opt "engine", opt "samples", opt "resolution_x", opt "resolution_y"]),
  ("render_image", engineHandler "render_image" [opt "filepath"]),
  ("render_animation", engineHandler "render_animation" [opt "filepath"]),
  ("create_collection", engineHandler "create_collection" [req "name"]),
  ("link_to_collection", engineHandler "link_to_collection"
    [req "object_name", req "collection_name"]),
  ("get_polyhaven_status", engineHandler "get_polyhaven_status" []),
  ("get_hyper3d_status", engineHandler "get_hyper3d_status" [])]

def polyhavenHandlers : List (String × Handler) := [
  ("get_polyhaven_categories", ⟨⟨[req "asset_type"], false⟩, get_polyhaven_categories_run⟩),
  ("search_polyhaven_assets",
    ⟨⟨[opt "asset_type", opt "categories"], false⟩, search_polyhaven_assets_run⟩),
  ("download_polyhaven_asset", engineHandler "download_polyhaven_asset"
    [req "asset_id", req "asset_type", opt "resolution", opt "file_format"]),
  ("set_texture", engineHandler "set_texture" [req "object_name", req "texture_id"])]

/-- The Hyper3D handlers take `*args, **kwargs` and fan out per provider. -/
def hyper3dHandlers : List (String × Handler) := [
  ("create_rodin_job", ⟨⟨[], true⟩, fun env s p => env.engine "create_rodin_job" s p⟩),
  ("poll_rodin_job_status",
    ⟨⟨[], true⟩, fun env s p => env.engine "poll_rodin_job_status" s p⟩),
  ("import_generated_asset",
    ⟨⟨[], true⟩, fun env s p => env.engine "import_generated_asset" s p⟩)]

/-- The handler dictionary as rebuilt on each call from the live flags. -/
def enabledHandlers (s : Scene) : List (String × Handler) :=
  baseHandlers ++
  (if s.blendermcp_use_polyhaven then polyhavenHandlers else []) ++
  (if s.blendermcp_use_hyper3d then hyper3dHandlers else [])

/-- `handlers.get(name)` for a string key. -/
def findHandler (s : Scene) (name : String) : Option (String × Handler) :=
  (enabledHandlers s).find? (fun p => p.1 == name)

/-! ### Dispatch (`execute_command` / `_execute_command_internal`) -/

/-- The response dictionaries the dispatch layer builds:
`{"status": "success", "result": …}` or `{"status": "error", "message": …}`. -/
structure Response where
  status : String
  result : Option JValue
  message : Option String

def mkSuccess (r : JValue) : Response := ⟨"success", some r, none⟩

def mkError (m : String) : Response := ⟨"error", none, some m⟩

/-- The `try` block around the handler call: bind `**params` (a `TypeError`
here is caught by the same `except`), run the body, and wrap its return
value — or the exception it raised — in the response envelope.  The scene
after a handler exception is whatever the body left behind. -/
def invokeHandler (env : Env) (s : Scene) (fname : String) (h : Handler)
    (paramsVal : JValue) : Response × Scene :=
  match paramsVal with
  | .obj params =>
    if bindOk h.sig params then
      match h.run env s params with
      | (s', .ok r) => (mkSuccess r, s')
      | (s', .error e) => (mkError e, s')
    else (mkError (bindErrMsg fname h.sig params), s)
  | _ => (mkError (fname ++ "() argument after ** must be a mapping"), s)

/-- `_execute_command_internal`: read `type` and `params` off the command
dictionary, rebuild the registry from the live flags, look the name up, and
either invoke the found handler inside its `try/except` or answer the
unknown-command error.  A `.error` escaping here models an exception this
function does not catch: `command.get` on a non-dictionary command, and
`handlers.get` on an unhashable `type` value. -/
def executeCommandInternal (env : Env) (s : Scene) (command : JValue) :
    Except String (Response × Scene) :=
  match command with
  | .obj fields =>
    let cmdType := lookupField fields "type"
    let paramsVal := (lookupField fields "params").getD (.obj [])
    match cmdType with
    | some (.arr _) => .error "unhashable type: list"
    | some (.obj _) => .error "unhashable type: dict"
    | _ =>
      match (match cmdType with | some (.str n) => findHandler s n | _ => none) with
      | some (fname, h) => .ok (invokeHandler env s fname h paramsVal)
      | none => .ok (mkError ("Unknown command type: " ++ pyFormatOpt cmdType), s)
  | .null => .error "AttributeError: NoneType object has no attribute get"
  | .bool _ => .error "AttributeError: bool object has no attribute get"
  | .num _ => .error "AttributeError: number object has no attribute get"
  | .str _ => .error "AttributeError: str object has no attribute get"
  | .arr _ => .error "AttributeError: list object has no attribute get"

/-- `execute_command`: the outer `try/except` that turns anything escaping
`_execute_command_internal` into an error response, so no exception ever
reaches the execute-wrapper on the Blender timer. -/
def execute_command (env : Env) (s : Scene) (command : JValue) : Response × Scene :=
  match executeCommandInternal env s command with
  | .ok rs => rs
  | .error e => (mkError e, s)

/-- The host context draining submitted commands one at a time: each command
produces exactly one response, against the scene state the previous one left. -/
def processCommands (env : Env) : Scene → List JValue → List Response × Scene
  | s, [] => ([], s)
  | s, c :: cs =>
    let (r, s') := execute_command env s c
    let (rs, s'') := processCommands env s' cs
    (r :: rs, s'')

/-! ### Server lifecycle (`BlenderMCPServer.start` / `.stop`)

The thread and socket are abstracted to presence flags; the bind/listen
sequence either succeeds or raises, which `start` answers by calling
`self.stop()`. -/

structure ServerState where
  running : Bool
  sock : Option Unit
  server_thread : Option Unit
deriving Repr, DecidableEq

/-- `stop()`: clear the running flag, close and drop the socket if any
(`close` failures are swallowed), join and drop the thread if any. -/
def serverStop (st : ServerState) : ServerState :=
  let st1 := { st with running := false }
  let st2 :=
    match st1.sock with
    | some _ => { st1 with sock := none }
    | none => st1
  match st2.server_thread with
  | some _ => { st2 with server_thread := none }
  | none => st2

/-- `start()`: a no-op while already running; otherwise set the running flag
and try to bind the listener and spawn the server thread, reverting through
`self.stop()` when the bind raises. -/
def serverStart (bindSucceeds : Bool) (st : ServerState) : ServerState :=
  if st.running then st
  else
    let st1 := { st with running := true }
    if bindSucceeds then { st1 with sock := some (), server_thread := some () }
    else serverStop st1

/-! ### Capability sets, named for the flag-liveness property -/

inductive Capability where
  | polyhaven
  | hyper3d
deriving Repr, DecidableEq

/-- The command names each optional capability set registers. -/
def Capability.names : Capability → List String
  | .polyhaven =>
    ["get_polyhaven_categories", "search_polyhaven_assets",
     "download_polyhaven_asset", "set_texture"]
  | .hyper3d => ["create_rodin_job", "poll_rodin_job_status", "import_generated_asset"]

/-- The live configuration flag gating each capability set. -/
def Capability.flag : Capability → Scene → Bool
  | .polyhaven, s => s.blendermcp_use_polyhaven
  | .hyper3d, s => s.blendermcp_use_hyper3d

/-! ### Concrete fixtures used by witnesses and counterexamples -/

/-- A collaborator environment whose Asset Provider is unreachable and whose
Scene Engine answers every call with a null result. -/
def env0 : Env :=
  { http := fun _ _ => .error "Connection refused",
    engine := fun _ s _ => (s, .ok .null) }

/-- An empty default scene with both capability flags off. -/
def scene0 : Scene := ⟨"Scene", 1, 1, 250, [], [], [], false, false⟩

def scenePH : Scene := { scene0 with blendermcp_use_polyhaven := true }

def sceneH3 : Scene := { scene0 with blendermcp_use_hyper3d := true }

/-- A scene holding eleven objects, for the `get_scene_info` truncation. -/
def sceneBig : Scene :=
  { scene0 with objects := List.replicate 11 ⟨"Cube", "MESH", [0, 0, 0], []⟩ }

/-- The one-character string `é` (U+00E9), encoded in UTF-8 as two bytes. -/
def eAcute : String := String.mk [Char.ofNat 233]

/-- The UTF-8 bytes of a complete well-formed command whose params carry the
two-byte character `é`: the document `given below as decodedCmd`. -/
def cmdBytes : List Nat :=
  [123, 34, 116, 121, 112, 101, 34, 58, 34, 97, 34, 44, 34, 112, 97, 114, 97,
   109, 115, 34, 58, 123, 34, 107, 34, 58, 34, 195, 169, 34, 125, 125]

/-- What `cmdBytes` decodes to when delivered whole. -/
def decodedCmd : JValue :=
  .obj [("type", .str "a"), ("params", .obj [("k", .str eAcute)])]

/-- The UTF-8 (pure ASCII) bytes of the complete command document with type
`x` and no params key. -/
def cmdBytesAscii : List Nat :=
  [123, 34, 116, 121, 112, 101, 34, 58, 34, 120, 34, 125]

/-! # Theorems -/

/-! ### Shared dispatch-layer lemmas -/

/-- Dispatch of a command whose `type` resolves in the live registry reduces
to the guarded handler invocation. -/
theorem dispatch_found (env : Env) (s : Scene) (fields : List (String × JValue))
    (n fname : String) (h : Handler)
    (hty : lookupField fields "type" = some (.str n))
    (hfind : findHandler s n = some (fname, h)) :
    executeCommandInternal env s (.obj fields) =
      .ok (invokeHandler env s fname h ((lookupField fields "params").getD (.obj []))) ∧
    execute_command env s (.obj fields) =
      invokeHandler env s fname h ((lookupField fields "params").getD (.obj [])) := by
  have hint : executeCommandInternal env s (.obj fields) =
      .ok (invokeHandler env s fname h ((lookupField fields "params").getD (.obj []))) := by
    simp only [executeCommandInternal, hty, hfind]
  exact ⟨hint, by simp only [execute_command, hint]⟩

/-- Dispatch of a command whose string `type` misses the live registry
answers the unknown-command error, leaving the scene untouched. -/
theorem dispatch_unknown (env : Env) (s : Scene) (fields : List (String × JValue))
    (n : String)
    (hty : lookupField fields "type" = some (.str n))
    (hfind : findHandler s n = none) :
    executeCommandInternal env s (.obj fields) =
      .ok (mkError ("Unknown command type: " ++ n), s) ∧
    execute_command env s (.obj fields) = (mkError ("Unknown command type: " ++ n), s) := by
  have hint : executeCommandInternal env s (.obj fields) =
      .ok (mkError ("Unknown command type: " ++ n), s) := by
    simp only [executeCommandInternal, hty, hfind, pyFormatOpt, pyStrOfJson]
  exact ⟨hint, by simp only [execute_command, hint]⟩

/-- A found handler whose body raises has the exception caught at the
invocation boundary and converted to an error response. -/
theorem dispatch_handler_error (env : Env) (s : Scene) (fields : List (String × JValue))
    (n fname : String) (h : Handler) (params : List (String × JValue))
    (e : String) (s₂ : Scene)
    (hty : lookupField fields "type" = some (.str n))
    (hfind : findHandler s n = some (fname, h))
    (hp : (lookupField fields "params").getD (.obj []) = .obj params)
    (hbind : bindOk h.sig params = true)
    (hrun : h.run env s params = (s₂, .error e)) :
    executeCommandInternal env s (.obj fields) = .ok (mkError e, s₂) ∧
    execute_command env s (.obj fields) = (mkError e, s₂) := by
  have hfound := dispatch_found env s fields n fname h hty hfind
  have hinv : invokeHandler env s fname h ((lookupField fields "params").getD (.obj [])) =
      (mkError e, s₂) := by
    rw [hp]
    simp only [invokeHandler, hbind, hrun, if_true]
  exact ⟨by rw [hfound.1, hinv], by rw [hfound.2, hinv]⟩

/-- The host drains one submission per tick: each command yields exactly one
response, whatever the outcomes. -/
theorem processCommands_length (env : Env) :
    ∀ (cs : List JValue) (s : Scene), ((processCommands env s cs).1).length = cs.length
  | [], _ => rfl
  | c :: cs, s => by
    simp only [processCommands]
    rcases hx : execute_command env s c with ⟨r, s1⟩
    rcases hy : processCommands env s1 cs with ⟨rs, s2⟩
    have := processCommands_length env cs s1
    rw [hy] at this
    simpa using this

/-- Every guarded handler invocation yields a success or an error envelope. -/
theorem invokeHandler_shape (env : Env) (s : Scene) (fname : String) (h : Handler)
    (pv : JValue) :
    (∃ r, (invokeHandler env s fname h pv).1 = mkSuccess r) ∨
    (∃ m, (invokeHandler env s fname h pv).1 = mkError m) := by
  cases pv with
  | obj params =>
    by_cases hb : bindOk h.sig params
    · rcases hr : h.run env s params with ⟨s', out⟩
      cases out with
      | ok r => exact .inl ⟨r, by simp [invokeHandler, hb, hr]⟩
      | error e => exact .inr ⟨e, by simp [invokeHandler, hb, hr]⟩
    · exact .inr ⟨bindErrMsg fname h.sig params, by simp [invokeHandler, hb]⟩
  | null => exact .inr ⟨_, rfl⟩
  | bool b => exact .inr ⟨_, rfl⟩
  | num l => exact .inr ⟨_, rfl⟩
  | str t => exact .inr ⟨_, rfl⟩
  | arr es => exact .inr ⟨_, rfl⟩

/-- Every response `_execute_command_internal` returns (rather than raises)
is a success or an error envelope. -/
theorem internal_shape (env : Env) (s : Scene) (cmd : JValue) (rs : Response × Scene)
    (hok : executeCommandInternal env s cmd = .ok rs) :
    (∃ r, rs.1 = mkSuccess r) ∨ (∃ m, rs.1 = mkError m) := by
  cases cmd with
  | obj fields =>
    rcases hty : lookupField fields "type" with _ | tv
    · simp only [executeCommandInternal, hty] at hok
      exact .inr ⟨_, by rw [← Except.ok.injEq _ _ |>.mp hok]⟩
    · cases tv with
      | str n =>
        rcases hfind : findHandler s n with _ | ⟨fname, h⟩
        · have := (dispatch_unknown env s fields n hty hfind).1
          rw [this] at hok
          exact .inr ⟨_, by rw [← Except.ok.injEq _ _ |>.mp hok]⟩
        · have := (dispatch_found env s fields n fname h hty hfind).1
          rw [this] at hok
          rw [← Except.ok.injEq _ _ |>.mp hok]
          exact invokeHandler_shape env s fname h _
      | null =>
        simp only [executeCommandInternal, hty] at hok
        exact .inr ⟨_, by rw [← Except.ok.injEq _ _ |>.mp hok]⟩
      | bool b =>
        simp only [executeCommandInternal, hty] at hok
        exact .inr ⟨_, by rw [← Except.ok.injEq _ _ |>.mp hok]⟩
      | num l =>
        simp only [executeCommandInternal, hty] at hok
        exact .inr ⟨_, by rw [← Except.ok.injEq _ _ |>.mp hok]⟩
      | arr es =>
        simp only [executeCommandInternal, hty] at hok
        exact Except.noConfusion hok
      | obj fs =>
        simp only [executeCommandInternal, hty] at hok
        exact Except.noConfusion hok
  | null => exact Except.noConfusion hok
  | bool b => exact Except.noConfusion hok
  | num l => exact Except.noConfusion hok
  | str t => exact Except.noConfusion hok
  | arr es => exact Except.noConfusion hok

/-! ### Claim theorems -/

/-- C1: a registered, enabled handler that raises has the exception caught
by the dispatch layer (`_execute_command_internal` returns normally) and
converted into a response with status `"error"` whose message is the
exception's description; the host keeps producing one response per
subsequent command. -/
theorem dispatch_catches_handler_exception
    (env : Env) (s : Scene) (fields : List (String × JValue))
    (n fname : String) (h : Handler) (params : List (String × JValue))
    (e : String) (s₂ : Scene)
    (hty : lookupField fields "type" = some (.str n))
    (hfind : findHandler s n = some (fname, h))
    (hp : (lookupField fields "params").getD (.obj []) = .obj params)
    (hbind : bindOk h.sig params = true)
    (hrun : h.run env s params = (s₂, .error e)) :
    executeCommandInternal env s (.obj fields) = .ok (mkError e, s₂) ∧
    execute_command env s (.obj fields) = (mkError e, s₂) ∧
    ∀ rest, ((processCommands env s ((JValue.obj fields) :: rest)).1).length =
      rest.length + 1 := by
  have hd := dispatch_handler_error env s fields n fname h params e s₂ hty hfind hp hbind hrun
  refine ⟨hd.1, hd.2, fun rest => ?_⟩
  simpa using processCommands_length env ((JValue.obj fields) :: rest) s

/-- Witness for C1: `add_modifier` on a missing object raises
`ValueError("Object not found: X")`; dispatch answers the error response and
the command still counts one response. -/
theorem dispatch_catches_handler_exception_witness :
    execute_command env0 scene0
      (.obj [("type", .str "add_modifier"),
             ("params", .obj [("object_name", .str "X"), ("modifier_type", .str "SUBSURF")])]) =
      (mkError "Object not found: X", scene0) ∧
    ((processCommands env0 scene0
      [.obj [("type", .str "add_modifier"),
             ("params", .obj [("object_name", .str "X"), ("modifier_type", .str "SUBSURF")])]]).1).length = 1 := by
  have h := dispatch_catches_handler_exception env0 scene0
    [("type", .str "add_modifier"),
     ("params", .obj [("object_name", .str "X"), ("modifier_type", .str "SUBSURF")])]
    "add_modifier" "add_modifier"
    ⟨⟨[req "object_name", req "modifier_type"], true⟩, add_modifier_run⟩
    [("object_name", .str "X"), ("modifier_type", .str "SUBSURF")]
    "Object not found: X" scene0 rfl rfl rfl rfl rfl
  exact ⟨h.2.1, by simpa using h.2.2 []⟩

/-- C2: a command whose string type is not in the currently-enabled handler
set — never registered, or gated behind a disabled flag — gets the
`Unknown command type` error response, returned normally (never raised),
with the scene untouched. -/
theorem dispatch_unknown_command_error
    (env : Env) (s : Scene) (fields : List (String × JValue)) (n : String)
    (hty : lookupField fields "type" = some (.str n))
    (hfind : findHandler s n = none) :
    executeCommandInternal env s (.obj fields) =
      .ok (mkError ("Unknown command type: " ++ n), s) ∧
    execute_command env s (.obj fields) =
      (mkError ("Unknown command type: " ++ n), s) :=
  dispatch_unknown env s fields n hty hfind

/-- Witness for C2: the never-registered name `unknown_cmd`, and the name
`search_polyhaven_assets`, registered only in the Polyhaven set, against a
scene whose Polyhaven flag is off. -/
theorem dispatch_unknown_command_error_witness :
    execute_command env0 scene0 (.obj [("type", .str "unknown_cmd"), ("params", .obj [])]) =
      (mkError "Unknown command type: unknown_cmd", scene0) ∧
    execute_command env0 scene0
      (.obj [("type", .str "search_polyhaven_assets"), ("params", .obj [])]) =
      (mkError "Unknown command type: search_polyhaven_assets", scene0) := by
  constructor
  · exact (dispatch_unknown_command_error env0 scene0
      [("type", .str "unknown_cmd"), ("params", .obj [])] "unknown_cmd" rfl rfl).2
  · exact (dispatch_unknown_command_error env0 scene0
      [("type", .str "search_polyhaven_assets"), ("params", .obj [])]
      "search_polyhaven_assets" rfl rfl).2

/-- C4: every response dispatch produces satisfies the envelope invariant —
either status `"success"` with a result present and no message, or status
`"error"` with a message present and no result; no other shape exists. -/
theorem dispatch_response_envelope (env : Env) (s : Scene) (cmd : JValue) :
    ((execute_command env s cmd).1.status = "success" ∧
     ((execute_command env s cmd).1.result).isSome = true ∧
     (execute_command env s cmd).1.message = none) ∨
    ((execute_command env s cmd).1.status = "error" ∧
     ((execute_command env s cmd).1.message).isSome = true ∧
     (execute_command env s cmd).1.result = none) := by
  rcases hint : executeCommandInternal env s cmd with e | rs
  · right
    simp [execute_command, hint, mkError]
  · have hsh := internal_shape env s cmd rs hint
    have hx : execute_command env s cmd = rs := by simp [execute_command, hint]
    rcases hsh with ⟨r, hr⟩ | ⟨m, hm⟩
    · left; rw [hx, hr]; simp [mkSuccess]
    · right; rw [hx, hm]; simp [mkError]

/-- C9: `start` while running is a no-op; a fresh successful `start` binds
exactly one listener and a second `start` changes nothing; `stop` is
idempotent and from any state lands in the stopped state (so a second
`stop` completes without error). -/
theorem server_lifecycle_idempotent (st : ServerState) (b : Bool) :
    (st.running = true → serverStart b st = st) ∧
    (st.running = false →
      (serverStart true st).running = true ∧
      (serverStart true st).sock = some () ∧
      serverStart b (serverStart true st) = serverStart true st) ∧
    serverStop (serverStop st) = serverStop st ∧
    serverStop st = ⟨false, none, none⟩ := by
  obtain ⟨r, so, th⟩ := st
  cases r <;> cases so <;> cases th <;>
    exact ⟨by intro hx; simp_all [serverStart],
           by intro hx; simp_all [serverStart, serverStop],
           rfl, rfl⟩

/-- Witness for C9 at the freshly stopped state. -/
theorem server_lifecycle_idempotent_witness :
    (serverStart true ⟨false, none, none⟩).running = true ∧
    (serverStart true ⟨false, none, none⟩).sock = some () ∧
    serverStart true (serverStart true ⟨false, none, none⟩) =
      serverStart true ⟨false, none, none⟩ ∧
    serverStop (serverStop ⟨true, some (), some ()⟩) = serverStop ⟨true, some (), some ()⟩ := by
  have h1 := (server_lifecycle_idempotent ⟨false, none, none⟩ true).2.1 rfl
  have h2 := (server_lifecycle_idempotent ⟨true, some (), some ()⟩ true).2.2.1
  exact ⟨h1.1, h1.2.1, h1.2.2, h2⟩

/-- C10: `get_scene_info` reports the full object count but lists only the
first ten objects, in scene order; past ten objects the count exceeds the
list's length. -/
theorem get_scene_info_truncates_objects (s : Scene) :
    (get_scene_info s).object_count = s.objects.length ∧
    (get_scene_info s).objects =
      (s.objects.take 10).map (fun o => ⟨o.name, o.objType, o.location⟩) ∧
    (get_scene_info s).objects.length = min 10 s.objects.length ∧
    (10 < s.objects.length →
      (get_scene_info s).objects.length < (get_scene_info s).object_count) := by
  refine ⟨rfl, rfl, by simp [get_scene_info], ?_⟩
  intro hgt
  simp only [get_scene_info, List.length_map, List.length_take]
  omega

/-- Witness for C10 on an eleven-object scene. -/
theorem get_scene_info_truncates_objects_witness :
    (get_scene_info sceneBig).objects.length < (get_scene_info sceneBig).object_count ∧
    (get_scene_info sceneBig).object_count = 11 := by
  have h := (get_scene_info_truncates_objects sceneBig).2.2.2 (by
    simp [sceneBig, scene0])
  exact ⟨h, by simp [get_scene_info, sceneBig, scene0]⟩

/-- C3: the registry is recomputed from the live capability flags at each
dispatch call: a capability's command name resolves exactly when its flag is
set at that call — the same name answers the unknown-command error whenever
the flag is off, and dispatches to its handler whenever it is on — with no
state beyond the flag itself involved. -/
theorem dispatch_capability_flags_live (cap : Capability) (c : String) (s : Scene)
    (hc : c ∈ cap.names) :
    (cap.flag s = (findHandler s c).isSome) ∧
    (cap.flag s = false → ∀ env fields, lookupField fields "type" = some (.str c) →
      execute_command env s (.obj fields) =
        (mkError ("Unknown command type: " ++ c), s)) ∧
    (∀ fname h, findHandler s c = some (fname, h) → ∀ env fields,
      lookupField fields "type" = some (.str c) →
      execute_command env s (.obj fields) =
        invokeHandler env s fname h ((lookupField fields "params").getD (.obj []))) := by
  obtain ⟨nm, fc, fs, fe, objs, mats, cols, up, uh⟩ := s
  refine ⟨?_, ?_, fun fname h hfind env fields hty =>
    (dispatch_found env _ fields c fname h hty hfind).2⟩
  · cases cap <;> simp only [Capability.names] at hc <;> fin_cases hc <;>
      cases up <;> cases uh <;> rfl
  · intro hflag env fields hty
    refine (dispatch_unknown env _ fields c hty ?_).2
    cases cap <;> simp only [Capability.names] at hc <;>
      cases up <;> cases uh <;> simp only [Capability.flag] at hflag <;>
      (try exact absurd hflag (fun hx => Bool.noConfusion hx)) <;>
      fin_cases hc <;> rfl

/-- Witness for C3: `create_rodin_job` resolves with the Hyper3D flag on,
and the very same name answers unknown-command with it off. -/
theorem dispatch_capability_flags_live_witness :
    (findHandler sceneH3 "create_rodin_job").isSome = true ∧
    (findHandler scene0 "create_rodin_job").isSome = false ∧
    execute_command env0 scene0
      (.obj [("type", .str "create_rodin_job"), ("params", .obj [])]) =
      (mkError "Unknown command type: create_rodin_job", scene0) := by
  have h1 := (dispatch_capability_flags_live .hyper3d "create_rodin_job" sceneH3
    (by simp [Capability.names])).1
  have h2 := (dispatch_capability_flags_live .hyper3d "create_rodin_job" scene0
    (by simp [Capability.names])).1
  have h3 := (dispatch_capability_flags_live .hyper3d "create_rodin_job" scene0
    (by simp [Capability.names])).2.1 rfl env0
    [("type", .str "create_rodin_job"), ("params", .obj [])] rfl
  exact ⟨by rw [← h1]; rfl, by rw [← h2]; rfl, h3⟩

/-- C7: dispatch calls the found handler with `params` expanded as keyword
arguments; when the mapping carries a key the handler does not take (absent
`**kwargs`) or misses a required one, binding fails before the body runs,
and the `TypeError` becomes an error response with the scene unchanged. -/
theorem dispatch_param_binding
    (env : Env) (s : Scene) (fields : List (String × JValue)) (n fname : String)
    (h : Handler) (params : List (String × JValue))
    (hty : lookupField fields "type" = some (.str n))
    (hfind : findHandler s n = some (fname, h))
    (hp : (lookupField fields "params").getD (.obj []) = .obj params) :
    (bindOk h.sig params = true →
      execute_command env s (.obj fields) =
        (match h.run env s params with
         | (s', .ok r) => (mkSuccess r, s')
         | (s', .error e) => (mkError e, s'))) ∧
    (bindOk h.sig params = false →
      execute_command env s (.obj fields) =
        (mkError (bindErrMsg fname h.sig params), s)) := by
  have hf := (dispatch_found env s fields n fname h hty hfind).2
  rw [hp] at hf
  constructor
  · intro hb
    rw [hf]
    simp only [invokeHandler, hb, if_true]
  · intro hb
    rw [hf]
    simp [invokeHandler, hb]

/-- Witness for C7: `get_object_info` rejects an unexpected keyword and a
missing required `name`, each before any body effect. -/
theorem dispatch_param_binding_witness :
    execute_command env0 scene0
      (.obj [("type", .str "get_object_info"), ("params", .obj [("foo", .null)])]) =
      (mkError "get_object_info() got an unexpected keyword argument foo", scene0) ∧
    execute_command env0 scene0
      (.obj [("type", .str "get_object_info"), ("params", .obj [])]) =
      (mkError "get_object_info() missing 1 required positional argument: name", scene0) := by
  constructor
  · exact (dispatch_param_binding env0 scene0
      [("type", .str "get_object_info"), ("params", .obj [("foo", .null)])]
      "get_object_info" "get_object_info" (engineHandler "get_object_info" [req "name"])
      [("foo", .null)] rfl rfl rfl).2 rfl
  · exact (dispatch_param_binding env0 scene0
      [("type", .str "get_object_info"), ("params", .obj [])]
      "get_object_info" "get_object_info" (engineHandler "get_object_info" [req "name"])
      [] rfl rfl rfl).2 rfl

/-- C5 evaluation: the concrete failing input.  Delivered whole, `cmdBytes`
decodes to exactly one command with the buffer left empty; split at byte
offset 28 — inside the two-byte UTF-8 sequence of `é` — the first chunk's
`buffer.decode('utf-8')` raises `UnicodeDecodeError`, which the
`except json.JSONDecodeError` clause does not catch, so the read loop
breaks: the connection dies with zero commands decoded. -/
theorem split_mid_utf8_drops_command :
    runClient ⟨[], true⟩ [cmdBytes] = (⟨[], true⟩, [decodedCmd]) ∧
    runClient ⟨[], true⟩ [cmdBytes.take 28, cmdBytes.drop 28] =
      (⟨cmdBytes.take 28, false⟩, []) := by
  constructor <;> rfl

/-- Counterexample to C6: a structurally invalid buffer (the lone byte
`0xFF`, never valid UTF-8) does not leave the buffer waiting for more data —
it terminates the read loop, so a subsequent complete command is never
decoded, although the same command bytes decode fine on a fresh connection. -/
theorem invalid_utf8_kills_connection :
    handleChunk ⟨[], true⟩ [255] = (⟨[255], false⟩, none) ∧
    runClient ⟨[], true⟩ [[255], cmdBytesAscii] = (⟨[255], false⟩, []) ∧
    runClient ⟨[], true⟩ [cmdBytesAscii] = (⟨[], true⟩, [.obj [("type", .str "x")]]) := by
  exact ⟨rfl, rfl, rfl⟩

/-- C6 as amended: for every accumulated buffer that decodes as UTF-8 but
fails JSON parsing — incomplete prefix or structurally invalid text alike —
the decode step produces no response, submits nothing, and retains the
buffer (with the new read appended) for the next iteration. -/
theorem decode_failure_retains_buffer (buf data : List Nat) (chars : List Char)
    (hne : data ≠ [])
    (hdec : utf8Decode (buf ++ data) = some chars)
    (hjson : jsonLoads chars = none) :
    handleChunk ⟨buf, true⟩ data = (⟨buf ++ data, true⟩, none) := by
  cases data with
  | nil => exact absurd rfl hne
  | cons d ds => simp [handleChunk, hdec, hjson]

/-- Witness for C6's amended form: an opening brace alone is retained. -/
theorem decode_failure_retains_buffer_witness :
    handleChunk ⟨[], true⟩ [123] = (⟨[123], true⟩, none) := by
  have h := decode_failure_retains_buffer [] [123] [Char.ofNat 123] (by simp) rfl rfl
  simpa using h

/-- Counterexample to C8: with the Asset Provider unreachable, the
`get_polyhaven_categories` handler catches the collaborator failure itself
and dispatch reports status `"success"` (the description only inside the
result payload), not the error response the claim requires. -/
theorem polyhaven_failure_reported_as_success :
    execute_command env0 scenePH
      (.obj [("type", .str "get_polyhaven_categories"),
             ("params", .obj [("asset_type", .str "hdris")])]) =
      (mkSuccess (.obj [("error", .str "Connection refused")]), scenePH) ∧
    (execute_command env0 scenePH
      (.obj [("type", .str "get_polyhaven_categories"),
             ("params", .obj [("asset_type", .str "hdris")])])).1.status ≠ "error" := by
  have h1 : execute_command env0 scenePH
      (.obj [("type", .str "get_polyhaven_categories"),
             ("params", .obj [("asset_type", .str "hdris")])]) =
      (mkSuccess (.obj [("error", .str "Connection refused")]), scenePH) := rfl
  refine ⟨h1, ?_⟩
  rw [h1]
  simp [mkSuccess]

/-- C8 as amended: a collaborator failure never crashes the host and is
always surfaced in the response — as an error response when the handler
lets the exception reach the dispatcher's catch, but as a success response
whose result carries the description in an `error` field for the Polyhaven
query handlers, which swallow Asset Provider failures themselves. -/
theorem collaborator_failure_surfaced (env : Env) (s : Scene) (e : String) :
    (∀ aty, aty ∈ ["hdris", "textures", "models", "all"] →
      env.http ("https://api.polyhaven.com/categories/" ++ aty) [] = .error e →
      get_polyhaven_categories_run env s [("asset_type", .str aty)] =
        (s, .ok (.obj [("error", .str e)]))) ∧
    (env.http "https://api.polyhaven.com/assets" [] = .error e →
      search_polyhaven_assets_run env s [] = (s, .ok (.obj [("error", .str e)]))) ∧
    (∀ fields n fname h params s₂,
      lookupField fields "type" = some (.str n) →
      findHandler s n = some (fname, h) →
      (lookupField fields "params").getD (.obj []) = .obj params →
      bindOk h.sig params = true →
      h.run env s params = (s₂, .error e) →
      execute_command env s (.obj fields) = (mkError e, s₂)) := by
  refine ⟨?_, ?_, fun fields n fname h params s₂ hty hfind hp hb hr =>
    (dispatch_handler_error env s fields n fname h params e s₂ hty hfind hp hb hr).2⟩
  · intro aty haty hhttp
    fin_cases haty <;>
      simp_all [get_polyhaven_categories_run, lookupField, isOneOfStr, pyStrOfJson]
  · intro hhttp
    simp [search_polyhaven_assets_run, lookupField, pyTruthy, hhttp]

/-- Witness for C8's amended form at the unreachable-provider environment. -/
theorem collaborator_failure_surfaced_witness :
    get_polyhaven_categories_run env0 scene0 [("asset_type", .str "hdris")] =
      (scene0, .ok (.obj [("error", .str "Connection refused")])) ∧
    search_polyhaven_assets_run env0 scene0 [] =
      (scene0, .ok (.obj [("error", .str "Connection refused")])) := by
  have h := collaborator_failure_surfaced env0 scene0 "Connection refused"
  exact ⟨h.1 "hdris" (by simp) rfl, h.2.1 rfl⟩
